import Mathlib

/-!
# Verification of the micropub authentication subsystem (`src/auth.rs`)

A shallow embedding of the IndieAuth/OAuth authentication flow of the
`harperreed/micropub` CLI: endpoint discovery (`discover_endpoints`),
PKCE material generation (`generate_code_verifier`,
`generate_code_challenge`), the OAuth callback handler
(`handle_callback`), scope validation (`validate_scope`), the token
exchange form (`exchange_code_for_token`), token-validation status
classification, and the orchestrating flow (`cmd_auth`) modelled as a
pure function from an environment of external responses to a result
paired with a trace of observable effects.

Rust strings are modelled as Lean `String`; random draws as explicit
arguments; HTTP responses as environment fields; machine-word
arithmetic inside SHA-256 as `Nat` reduced mod `2 ^ 32`.
-/

namespace Micropub

/-! ## String helpers mirroring the Rust standard library

All helpers are written by structural recursion over the character list so
that every definition evaluates inside the kernel. -/

/-- `leadsWith p l`: `l` begins with the pattern `p` (Rust `str::starts_with`
on character lists). -/
def leadsWith : List Char → List Char → Bool
  | [], _ => true
  | _ :: _, [] => false
  | p :: ps, c :: cs => p == c && leadsWith ps cs

/-- Rust `str::starts_with(pat)`. -/
def startsW (s pat : String) : Bool := leadsWith pat.data s.data

/-- Split a character list on a separator character; `n` separators give
`n + 1` pieces (Rust `str::split(c)`). -/
def splitChar (sep : Char) : List Char → List (List Char)
  | [] => [[]]
  | c :: cs =>
    let r := splitChar sep cs
    if c == sep then [] :: r else (c :: r.headD []) :: r.tail

/-- Rust `str::trim` (whitespace from both ends). -/
def trimChars (l : List Char) : List Char :=
  ((l.dropWhile Char.isWhitespace).reverse.dropWhile Char.isWhitespace).reverse

/-- Rust `str::trim` on strings. -/
def trimStr (s : String) : String := String.mk (trimChars s.data)

/-- Rust `str::trim_start_matches(c)`: remove every leading occurrence of `c`. -/
def trimStartMatches (c : Char) (s : String) : String :=
  String.mk (s.data.dropWhile (fun d => d = c))

/-- Rust `str::trim_end_matches(c)`: remove every trailing occurrence of `c`. -/
def trimEndMatches (c : Char) (s : String) : String :=
  String.mk ((s.data.reverse.dropWhile (fun d => d = c)).reverse)

/-- Rust `str::trim_matches(c)`: remove leading and trailing occurrences of `c`. -/
def trimMatches (c : Char) (s : String) : String :=
  trimEndMatches c (trimStartMatches c s)

/-- Rust `str::strip_prefix`: `some` of the remainder when `p` leads `s`. -/
def stripLead (p s : String) : Option String :=
  if leadsWith p.data s.data then some (String.mk (s.data.drop p.data.length))
  else none

/-- Worker for `replaceAll`, structurally recursive on the character list:
`k` counts pattern characters still to be skipped after a match. -/
def replaceGo (pat rep : List Char) : Nat → List Char → List Char
  | _, [] => []
  | Nat.succ k, _ :: cs => replaceGo pat rep k cs
  | 0, c :: cs =>
    if leadsWith pat (c :: cs) && !pat.isEmpty then
      rep ++ replaceGo pat rep (pat.length - 1) cs
    else c :: replaceGo pat rep 0 cs

/-- Rust `str::replace(pat, rep)`: replace every occurrence, scanning left
to right. -/
def replaceAll (pat rep l : List Char) : List Char := replaceGo pat rep 0 l

/-- Decimal digit character. -/
def digitChar (n : Nat) : Char := Char.ofNat (48 + n % 10)

/-- Decimal representation of a natural number below `10 ^ fuel` (used for
ports and HTTP statuses; `Nat.repr` itself does not reduce in the kernel). -/
def natToChars : Nat → Nat → List Char
  | 0, _ => []
  | fuel + 1, n =>
    if n < 10 then [digitChar n]
    else natToChars fuel (n / 10) ++ [digitChar (n % 10)]

/-- Decimal string of a natural number. -/
def natStr (n : Nat) : String := String.mk (natToChars 20 n)

/-- UTF-8 encoding of one character. -/
def utf8Char (c : Char) : List Nat :=
  let n := c.toNat
  if n < 128 then [n]
  else if n < 2048 then [192 ||| (n >>> 6), 128 ||| (n &&& 63)]
  else if n < 65536 then
    [224 ||| (n >>> 12), 128 ||| ((n >>> 6) &&& 63), 128 ||| (n &&& 63)]
  else
    [240 ||| (n >>> 18), 128 ||| ((n >>> 12) &&& 63),
     128 ||| ((n >>> 6) &&& 63), 128 ||| (n &&& 63)]

deriving instance DecidableEq for Except

/-! ## `validate_scope` (src/auth.rs:373-390) -/

/-- The character class accepted by `validate_scope`:
ASCII alphanumerics, space, hyphen, underscore. -/
def scopeCharOk (c : Char) : Bool :=
  c.isAlphanum || c = ' ' || c = '-' || c = '_'

/-- `validate_scope`: empty scope is valid; otherwise every character must
satisfy `scopeCharOk`, else an invalid-scope error. -/
def validate_scope (scope : String) : Except String Unit :=
  if scope.data.isEmpty then .ok ()
  else if !(scope.data.all scopeCharOk) then
    .error ("Invalid scope '" ++ scope ++
      "': only alphanumeric characters, spaces, hyphens, and underscores allowed")
  else .ok ()

/-! ## Token-validation status classification (src/auth.rs:548-582)

The `match validation_response.status()` arms of `cmd_auth`, in source
order: `is_success` (2xx), then 401/403, then 429, then `is_server_error`
(5xx), then a catch-all. -/

/-- Outcome of the token-validation probe, as in the spec's data model. -/
inductive ValidationOutcome where
  | Accepted
  | AcceptedWithWarning
  | Rejected
deriving DecidableEq, Repr

/-- Classification of the HTTP status of the validation probe, embedding the
match arms of `cmd_auth` in their source order. -/
def classifyStatus (s : Nat) : ValidationOutcome :=
  if 200 ≤ s ∧ s ≤ 299 then .Accepted
  else if s = 401 ∨ s = 403 then .Rejected
  else if s = 429 then .AcceptedWithWarning
  else if 500 ≤ s ∧ s ≤ 599 then .AcceptedWithWarning
  else .Rejected

/-! ## Domain normalization and the localhost check (src/auth.rs:22-71) -/

/-- The `is_localhost` predicate of `discover_endpoints`: a disjunction of
twelve `starts_with` tests on the raw domain string. -/
def is_localhost (domain : String) : Bool :=
  startsW domain "localhost"
  || startsW domain "127.0.0.1"
  || startsW domain "::1"
  || startsW domain "[::1]"
  || startsW domain "http://localhost"
  || startsW domain "http://127.0.0.1"
  || startsW domain "http://::1"
  || startsW domain "http://[::1]"
  || startsW domain "https://localhost"
  || startsW domain "https://127.0.0.1"
  || startsW domain "https://::1"
  || startsW domain "https://[::1]"

/-- The scheme-selection step of `discover_endpoints`: `https://` domains pass
through; `http://` domains pass only when `is_localhost`, otherwise an
insecure-HTTP error; schemeless domains get `http://` when `is_localhost`,
else `https://`. -/
def discoverUrl (domain : String) : Except String String :=
  if startsW domain "https://" then .ok domain
  else if startsW domain "http://" then
    if is_localhost domain then .ok domain
    else .error ("Insecure HTTP not allowed. Please use HTTPS: " ++
      String.mk (replaceAll "http://".data "https://".data domain.data))
  else
    if is_localhost domain then .ok ("http://" ++ domain)
    else .ok ("https://" ++ domain)

/-- The scheme of an absolute URL as the `url` crate reports it: the (already
lower-cased) text before the first colon. -/
def urlScheme (u : String) : String :=
  String.mk (u.data.takeWhile (fun c => c ≠ ':'))

/-- The redirect-downgrade guard of `discover_endpoints`
(src/auth.rs:64-71): an error when the final URL's scheme is not `https`
and the *input domain* did not test as localhost. -/
def downgradeBlocked (domain finalUrl : String) : Bool :=
  urlScheme finalUrl ≠ "https" && !(is_localhost domain)

/-- The downgrade error message of `discover_endpoints`. -/
def downgradeMsg (finalUrl : String) : String :=
  "Security error: Server redirected to insecure HTTP (" ++ finalUrl ++
    "). This is not allowed."

/-! ## Endpoint extraction (src/auth.rs:73-139)

`discover_endpoints` first scans every `Link` response header (split on
commas, each chunk split on semicolons; the URL between `<`/`>`; each
`rel=` parameter unquoted), assigning each recognised relation
unconditionally; it then scans HTML `<link rel href>` tags, assigning a
relation only when it is still unresolved.  `resolve_url` (which wraps
the `url` crate's RFC 3986 join against the final response URL) is kept
abstract as a `resolve` parameter returning `Except`. -/

/-- The mutable endpoint triple threaded through both extraction passes. -/
structure Endpoints where
  micropub : Option String
  authorization : Option String
  token : Option String
deriving DecidableEq, Repr

/-- All three endpoint slots start unresolved. -/
def emptyEndpoints : Endpoints := ⟨none, none, none⟩

/-- The `match rel` arms of the header pass: an unconditional assignment for
the three recognised relation names, a no-op otherwise. -/
def relAssign (rel resolved : String) (e : Endpoints) : Endpoints :=
  if rel = "micropub" then { e with micropub := some resolved }
  else if rel = "authorization_endpoint" then { e with authorization := some resolved }
  else if rel = "token_endpoint" then { e with token := some resolved }
  else e

/-- One semicolon-separated parameter of a Link-header chunk: when it is a
`rel=` parameter, unquote the value, resolve the chunk's URL (propagating
resolution failure), and assign. -/
def relParamStep (resolve : String → String → Except String String) (finalUrl endpointUrl : String)
    (e : Endpoints) (param : String) : Except String Endpoints :=
  match stripLead "rel=" (trimStr param) with
  | none => .ok e
  | some relValue =>
    let rel := trimMatches (Char.ofNat 39) (trimMatches '"' relValue)
    match resolve finalUrl endpointUrl with
    | .error msg => .error msg
    | .ok resolved => .ok (relAssign rel resolved e)

/-- One comma-separated chunk of a Link header: skipped unless it has at
least two semicolon-separated parts; the first part (angle brackets
stripped) is the endpoint URL, the remaining parts are scanned for `rel=`. -/
def linkChunkStep (resolve : String → String → Except String String) (finalUrl : String)
    (e : Endpoints) (link : String) : Except String Endpoints :=
  let parts := splitChar ';' link.data
  if parts.length < 2 then .ok e
  else
    let urlPart := trimStr (String.mk (parts.headD []))
    let endpointUrl := trimEndMatches '>' (trimStartMatches '<' urlPart)
    (parts.tail.map String.mk).foldlM (relParamStep resolve finalUrl endpointUrl) e

/-- One whole `Link` header value: its comma-separated chunks in order. -/
def linkHeaderStep (resolve : String → String → Except String String) (finalUrl : String)
    (e : Endpoints) (header : String) : Except String Endpoints :=
  ((splitChar ',' header.data).map String.mk).foldlM (linkChunkStep resolve finalUrl) e

/-- The full header pass over every `Link` header. -/
def headersPass (resolve : String → String → Except String String) (finalUrl : String)
    (headers : List String) (e : Endpoints) : Except String Endpoints :=
  headers.foldlM (linkHeaderStep resolve finalUrl) e

/-- One HTML `<link rel=... href=...>` element (`href` may be absent): the
guarded match arms assign a relation only when its slot is still `none`. -/
def htmlLinkStep (resolve : String → String → Except String String) (finalUrl : String)
    (e : Endpoints) (link : String × Option String) : Except String Endpoints :=
  match link.2 with
  | none => .ok e
  | some href =>
    if link.1 = "micropub" && e.micropub.isNone then
      match resolve finalUrl href with
      | .error msg => .error msg
      | .ok r => .ok { e with micropub := some r }
    else if link.1 = "authorization_endpoint" && e.authorization.isNone then
      match resolve finalUrl href with
      | .error msg => .error msg
      | .ok r => .ok { e with authorization := some r }
    else if link.1 = "token_endpoint" && e.token.isNone then
      match resolve finalUrl href with
      | .error msg => .error msg
      | .ok r => .ok { e with token := some r }
    else .ok e

/-- The fallback pass over the document's `link[rel]` elements, as the
source's `for element in document.select(..)` loop. -/
def htmlPass (resolve : String → String → Except String String) (finalUrl : String) :
    List (String × Option String) → Endpoints → Except String Endpoints
  | [], e => .ok e
  | l :: ls, e =>
    match htmlLinkStep resolve finalUrl e l with
    | .error msg => .error msg
    | .ok e' => htmlPass resolve finalUrl ls e'

/-- Both extraction passes in source order: headers first, HTML second. -/
def discoverExtract (resolve : String → String → Except String String) (finalUrl : String)
    (headers : List String) (links : List (String × Option String)) :
    Except String Endpoints :=
  match headersPass resolve finalUrl headers emptyEndpoints with
  | .error msg => .error msg
  | .ok e => htmlPass resolve finalUrl links e

/-- The three `context(...)` checks closing `discover_endpoints`: each
relation must have been resolved by one of the passes. -/
def requireEndpoints (e : Endpoints) : Except String (String × String × String) :=
  match e.micropub with
  | none => .error "Could not find micropub endpoint in Link headers or HTML"
  | some m =>
    match e.authorization with
    | none => .error "Could not find authorization_endpoint in Link headers or HTML"
    | some a =>
      match e.token with
      | none => .error "Could not find token_endpoint in Link headers or HTML"
      | some t => .ok (m, a, t)

/-! ## Observable effects and the full discoverer -/

/-- The externally observable effects of one `cmd_auth` run: outbound HTTP
requests, the browser launch, and the persistence writes. -/
inductive Effect where
  | httpGet (url : String)
  | httpExchange (endpoint : String) (form : List (String × String))
  | httpValidate (endpoint : String) (token : String)
  | httpMediaConfig (endpoint : String) (token : String)
  | openBrowser (authEndpoint : String) (params : List (String × String))
  | saveToken (token : String)
  | saveConfig (profile : String)
deriving DecidableEq, Repr

/-- Effects that are outbound HTTP requests issued by this process. -/
def Effect.isHttpReq : Effect → Bool
  | .httpGet _ => true
  | .httpExchange _ _ => true
  | .httpValidate _ _ => true
  | .httpMediaConfig _ _ => true
  | _ => false

/-- Effects that are token-exchange requests. -/
def Effect.isExchange : Effect → Bool
  | .httpExchange _ _ => true
  | _ => false

/-- The response `discover_endpoints` observes for its single GET: the final
URL after redirects, the `Link` headers, and the parsed `link[rel]`
elements of the body. -/
structure DiscResponse where
  finalUrl : String
  linkHeaders : List String
  htmlLinks : List (String × Option String)
deriving DecidableEq, Repr

/-- `discover_endpoints` (src/auth.rs:22-140): scheme normalization, the
single GET (recorded as an effect; `resp` is its outcome), the
redirect-downgrade guard, then both extraction passes and the
missing-endpoint checks. -/
def discover_endpoints (resolve : String → String → Except String String) (domain : String)
    (resp : Except String DiscResponse) :
    Except String (String × String × String) × List Effect :=
  match discoverUrl domain with
  | .error e => (.error e, [])
  | .ok url =>
    match resp with
    | .error e => (.error e, [.httpGet url])
    | .ok r =>
      if downgradeBlocked domain r.finalUrl then
        (.error (downgradeMsg r.finalUrl), [.httpGet url])
      else
        match discoverExtract resolve r.finalUrl r.linkHeaders r.htmlLinks with
        | .error e => (.error e, [.httpGet url])
        | .ok eps => (requireEndpoints eps, [.httpGet url])

/-! ## SHA-256 (the `sha2` crate, FIPS 180-4) over `Nat` words mod `2 ^ 32` -/

/-- Reduce to a 32-bit word. -/
def w32 (x : Nat) : Nat := x % 4294967296

/-- 32-bit right rotation (argument already a 32-bit word). -/
def rotr32 (n x : Nat) : Nat := w32 ((x >>> n) ||| (x <<< (32 - n)))

/-- Lower-case sigma-0 of the message schedule. -/
def ssig0 (x : Nat) : Nat := (rotr32 7 x) ^^^ (rotr32 18 x) ^^^ (x >>> 3)

/-- Lower-case sigma-1 of the message schedule. -/
def ssig1 (x : Nat) : Nat := (rotr32 17 x) ^^^ (rotr32 19 x) ^^^ (x >>> 10)

/-- Upper-case sigma-0 of the compression function. -/
def bsig0 (x : Nat) : Nat := (rotr32 2 x) ^^^ (rotr32 13 x) ^^^ (rotr32 22 x)

/-- Upper-case sigma-1 of the compression function. -/
def bsig1 (x : Nat) : Nat := (rotr32 6 x) ^^^ (rotr32 11 x) ^^^ (rotr32 25 x)

/-- The choice function `Ch(x,y,z)`. -/
def chF (x y z : Nat) : Nat := (x &&& y) ^^^ ((x ^^^ 4294967295) &&& z)

/-- The majority function `Maj(x,y,z)`. -/
def majF (x y z : Nat) : Nat := (x &&& y) ^^^ (x &&& z) ^^^ (y &&& z)

/-- The 64 SHA-256 round constants. -/
def sha256K : List Nat :=
  [1116352408, 1899447441, 3049323471,
   3921009573, 961987163, 1508970993,
   2453635748, 2870763221, 3624381080,
   310598401, 607225278, 1426881987,
   1925078388, 2162078206, 2614888103,
   3248222580, 3835390401, 4022224774,
   264347078, 604807628, 770255983,
   1249150122, 1555081692, 1996064986,
   2554220882, 2821834349, 2952996808,
   3210313671, 3336571891, 3584528711,
   113926993, 338241895, 666307205,
   773529912, 1294757372, 1396182291,
   1695183700, 1986661051, 2177026350,
   2456956037, 2730485921, 2820302411,
   3259730800, 3345764771, 3516065817,
   3600352804, 4094571909, 275423344,
   430227734, 506948616, 659060556,
   883997877, 958139571, 1322822218,
   1537002063, 1747873779, 1955562222,
   2024104815, 2227730452, 2361852424,
   2428436474, 2756734187, 3204031479,
   3329325298]

/-- The SHA-256 initial hash value. -/
def sha256H0 : List Nat :=
  [1779033703, 3144134277, 1013904242,
   2773480762, 1359893119, 2600822924,
   528734635, 1541459225]

/-- Merkle–Damgård padding: a `0x80` byte, zeros to 56 mod 64, then the
bit length as 8 big-endian bytes. -/
def sha256Pad (msg : List Nat) : List Nat :=
  let bitLen := 8 * msg.length
  let k := (64 + 56 - ((msg.length + 1) % 64)) % 64
  msg ++ [0x80] ++ List.replicate k 0 ++
    [(bitLen >>> 56) % 256, (bitLen >>> 48) % 256, (bitLen >>> 40) % 256,
     (bitLen >>> 32) % 256, (bitLen >>> 24) % 256, (bitLen >>> 16) % 256,
     (bitLen >>> 8) % 256, bitLen % 256]

/-- Split a byte list into 64-byte blocks. -/
def chunks64 : List Nat → List (List Nat)
  | [] => []
  | x :: xs => ((x :: xs).take 64) :: chunks64 ((x :: xs).drop 64)
termination_by l => l.length
decreasing_by simp [List.length_drop]; omega

/-- Big-endian 32-bit words from a byte list. -/
def words16 : List Nat → List Nat
  | b0 :: b1 :: b2 :: b3 :: rest =>
    ((b0 <<< 24) ||| (b1 <<< 16) ||| (b2 <<< 8) ||| b3) :: words16 rest
  | _ => []

/-- Extend the 16 block words to the 64-entry message schedule. -/
def extendW (w : Array Nat) : Array Nat :=
  (List.range 48).foldl (fun w i =>
    w.push (w32 (w.getD i 0 + ssig0 (w.getD (i + 1) 0) +
      w.getD (i + 9) 0 + ssig1 (w.getD (i + 14) 0)))) w

/-- One 64-round compression of a block into the running hash (both as
8-element word lists). -/
def compressChunk (hs chunk : List Nat) : List Nat :=
  let w := extendW (Array.mk (words16 chunk))
  let final := (List.range 64).foldl (fun st i =>
    match st with
    | [a, b, c, d, e, f, g, hh] =>
      let t1 := w32 (hh + bsig1 e + chF e f g + sha256K.getD i 0 + w.getD i 0)
      let t2 := w32 (bsig0 a + majF a b c)
      [w32 (t1 + t2), a, b, c, w32 (d + t1), e, f, g]
    | other => other) hs
  match hs, final with
  | [h0, h1, h2, h3, h4, h5, h6, h7], [a, b, c, d, e, f, g, hh] =>
    [w32 (h0 + a), w32 (h1 + b), w32 (h2 + c), w32 (h3 + d),
     w32 (h4 + e), w32 (h5 + f), w32 (h6 + g), w32 (h7 + hh)]
  | _, _ => hs

/-- SHA-256 of a byte list, as the 32-byte big-endian digest. -/
def sha256 (msg : List Nat) : List Nat :=
  let hs := (chunks64 (sha256Pad msg)).foldl compressChunk sha256H0
  hs.foldr (fun h acc =>
    (h >>> 24) % 256 :: (h >>> 16) % 256 :: (h >>> 8) % 256 :: h % 256 :: acc) []

/-! ## Base64url without padding (`base64::engine::general_purpose::URL_SAFE_NO_PAD`) -/

/-- The URL-safe base64 alphabet. -/
def b64UrlChar (n : Nat) : Char :=
  if n < 26 then Char.ofNat (65 + n)
  else if n < 52 then Char.ofNat (97 + (n - 26))
  else if n < 62 then Char.ofNat (48 + (n - 52))
  else if n = 62 then '-' else '_'

/-- Base64url encoding of a byte list, three bytes to four symbols, the
final partial group emitted without padding. -/
def b64UrlEncList : List Nat → List Char
  | [] => []
  | [b1] => [b64UrlChar (b1 >>> 2), b64UrlChar ((b1 % 4) <<< 4)]
  | [b1, b2] =>
    [b64UrlChar (b1 >>> 2), b64UrlChar (((b1 % 4) <<< 4) ||| (b2 >>> 4)),
     b64UrlChar ((b2 % 16) <<< 2)]
  | b1 :: b2 :: b3 :: rest =>
    b64UrlChar (b1 >>> 2) :: b64UrlChar (((b1 % 4) <<< 4) ||| (b2 >>> 4)) ::
    b64UrlChar (((b2 % 16) <<< 2) ||| (b3 >>> 6)) :: b64UrlChar (b3 % 64) ::
    b64UrlEncList rest

/-- `URL_SAFE_NO_PAD.encode`. -/
def base64UrlNoPad (bytes : List Nat) : String := String.mk (b64UrlEncList bytes)

/-- The UTF-8 bytes of a string (`str::as_bytes`). -/
def strBytes (s : String) : List Nat := s.data.foldr (fun c acc => utf8Char c ++ acc) []

/-! ## PKCE generation (src/auth.rs:174-201) -/

/-- The index-to-character table of `generate_code_verifier`: indices
`0..=25` map to `A..Z`, `26..=51` to `a..z`, the rest to `0..9`. -/
def verifierChar (idx : Nat) : Char :=
  if idx ≤ 25 then Char.ofNat (65 + idx)
  else if idx ≤ 51 then Char.ofNat (97 + (idx - 26))
  else Char.ofNat (48 + (idx - 52))

/-- `generate_code_verifier`: 128 characters, each from a random draw in
`[0, 62)` (the `rng.gen_range(0..62)` contract is carried as a hypothesis
by the theorems). -/
def generate_code_verifier (draw : Nat → Nat) : String :=
  String.mk ((List.range 128).map (fun i => verifierChar (draw i)))

/-- `generate_code_challenge`: base64url-no-pad of the SHA-256 digest of the
verifier's bytes. -/
def generate_code_challenge (verifier : String) : String :=
  base64UrlNoPad (sha256 (strBytes verifier))

/-! ## The OAuth callback handler (src/auth.rs:203-263) -/

/-- The shared callback slot (`OAuthCallback`): three mutex-guarded options. -/
structure OAuthCallback where
  code : Option String
  state : Option String
  error : Option String
deriving DecidableEq, Repr

/-- The HTTP response the handler returns. -/
structure CallbackResponse where
  status : Nat
  body : String
deriving DecidableEq, Repr

/-- Query-parameter lookup after `form_urlencoded::parse(...).collect()` into
a `HashMap`: for a repeated key the last occurrence wins. -/
def lookupParam (params : List (String × String)) (k : String) : Option String :=
  params.foldl (fun acc kv => if kv.1 = k then some kv.2 else acc) none

/-- The failure page of the error branch. -/
def failurePage (error desc : String) : String :=
  "<html><body><h1>Authentication Failed</h1><p>Error: " ++ error ++ "</p><p>" ++
    desc ++ "</p><p>You can close this window.</p></body></html>"

/-- The success page of the code/state branch. -/
def successPage : String :=
  "<html><body><h1>Authentication Successful!</h1><p>You can close this window and return to the terminal.</p><script>window.close();</script></body></html>"

/-- The 400 page for a request with neither `error` nor both `code`/`state`. -/
def invalidPage : String :=
  "<html><body><h1>Invalid Callback</h1><p>Missing required parameters.</p></body></html>"

/-- `handle_callback`: the error branch stores `error` and returns the
failure page; otherwise the code/state branch stores both and returns the
success page; otherwise a 400 leaves the slot untouched.  Every store is an
unconditional overwrite of the slot. -/
def handle_callback (params : List (String × String)) (cb : OAuthCallback) :
    OAuthCallback × CallbackResponse :=
  match lookupParam params "error" with
  | some err =>
    let desc := (lookupParam params "error_description").getD "Unknown error"
    ({ cb with error := some err }, { status := 200, body := failurePage err desc })
  | none =>
    match lookupParam params "code", lookupParam params "state" with
    | some code, some st =>
      ({ cb with code := some code, state := some st },
       { status := 200, body := successPage })
    | _, _ => (cb, { status := 400, body := invalidPage })

/-! ## Token exchange and authorization URL parameters -/

/-- The form body of `exchange_code_for_token` (src/auth.rs:336-342), in
source order; it carries the raw PKCE verifier as `code_verifier`. -/
def exchangeForm (code clientId redirectUri verifier : String) :
    List (String × String) :=
  [("grant_type", "authorization_code"), ("code", code), ("client_id", clientId),
   ("redirect_uri", redirectUri), ("code_verifier", verifier)]

/-- The query pairs `cmd_auth` appends to the authorization URL
(src/auth.rs:446-456), in source order; it carries the challenge, never the
verifier. -/
def authUrlParams (clientId redirectUri state challenge scope me : String) :
    List (String × String) :=
  [("response_type", "code"), ("client_id", clientId), ("redirect_uri", redirectUri),
   ("state", state), ("code_challenge", challenge),
   ("code_challenge_method", "S256"), ("scope", scope), ("me", me)]

/-- The `me` parameter (src/auth.rs:429-444): schemed domains pass through;
otherwise `http://` for the *four-way* localhost prefix test used here,
else `https://`. -/
def meParam (domain : String) : String :=
  if startsW domain "http://" || startsW domain "https://" then domain
  else if startsW domain "localhost" || startsW domain "127.0.0.1"
      || startsW domain "::1" || startsW domain "[::1]" then
    "http://" ++ domain
  else "https://" ++ domain

/-- The profile name (src/auth.rs:586-597): for schemed domains the host
(with any explicit port) of the parsed URL here modelled as the text
between the scheme and the first slash; otherwise the domain itself.
(The `url` crate's dropping of default ports and host normalization are
not modelled; no claim depends on them.) -/
def profileName (domain : String) : String :=
  if startsW domain "http://" || startsW domain "https://" then
    let rest := if startsW domain "http://" then String.mk (domain.data.drop 7) else String.mk (domain.data.drop 8)
    String.mk (rest.data.takeWhile (fun c => c ≠ '/'))
  else domain

/-! ## The orchestrating flow `cmd_auth` (src/auth.rs:393-655)

The flow is modelled as a pure function of the externally supplied
outcomes: the discovery response, the callback slot contents observed
after the listener terminates, the exchange and validation responses.
Random generation (verifier, state) is supplied by the environment; the
challenge is derived in the flow exactly as in the source. -/

/-- The environment of one `cmd_auth` run: every input the flow draws from
the outside world, in particular the outcome of each network interaction. -/
structure AuthEnv where
  resolve : String → String → Except String String
  resp : Except String DiscResponse
  port : Nat
  verifier : String
  state : String
  clientId : Option String
  serverRun : Except String Unit
  cbCode : Option String
  cbState : Option String
  cbError : Option String
  exchangeOutcome : Except String String
  validationOutcome : Except String Nat
  validationBody : String

/-- The tail of `cmd_auth` from the validation probe on (src/auth.rs:536-654):
the probe is issued, its outcome classified by the source's match arms in
order, and on every accepting arm the token is saved, the media endpoint
queried, and the profile configuration saved. -/
def validationStage (domain micropub token : String) (env : AuthEnv)
    (tr : List Effect) : Except String Unit × List Effect :=
  let tr := tr ++ [.httpValidate micropub token]
  match env.validationOutcome with
  | .error e => (.error e, tr)
  | .ok status =>
    let finish : Except String Unit × List Effect :=
      (.ok (), tr ++ [.saveToken token, .httpMediaConfig micropub token,
        .saveConfig (profileName domain)])
    if 200 ≤ status ∧ status ≤ 299 then finish
    else if status = 401 ∨ status = 403 then
      (.error ("Token validation failed - the token was rejected (status " ++
        natStr status ++ "). The authorization server may have issued an invalid token."), tr)
    else if status = 429 then finish
    else if 500 ≤ status ∧ status ≤ 599 then finish
    else
      (.error ("Token validation failed with unexpected status " ++
        natStr status ++ ": " ++ env.validationBody), tr)

/-- The tail of `cmd_auth` from the token exchange on (src/auth.rs:524-531):
the exchange POST is issued with the verifier in its form body; failure is
fatal, success hands the token to validation. -/
def exchangeStage (domain micropub tokenEp code clientId redirectUri verifier : String)
    (env : AuthEnv) (tr : List Effect) : Except String Unit × List Effect :=
  let tr := tr ++ [.httpExchange tokenEp (exchangeForm code clientId redirectUri verifier)]
  match env.exchangeOutcome with
  | .error e => (.error e, tr)
  | .ok token => validationStage domain micropub token env tr

/-- The tail of `cmd_auth` from the wait on the callback listener on
(src/auth.rs:484-518): server errors, the authorization-server `error`,
missing code or state, then the CSRF state comparison — only equality
reaches the exchange. -/
def callbackStage (domain micropub tokenEp clientId redirectUri verifier state : String)
    (env : AuthEnv) (tr : List Effect) : Except String Unit × List Effect :=
  match env.serverRun with
  | .error e => (.error ("OAuth callback server error: " ++ e), tr)
  | .ok _ =>
    match env.cbError with
    | some err => (.error ("Authorization failed: " ++ err), tr)
    | none =>
      match env.cbCode with
      | none => (.error "No authorization code received", tr)
      | some code =>
        match env.cbState with
        | none => (.error "No state received", tr)
        | some received =>
          if received ≠ state then
            (.error "State mismatch - possible CSRF attack", tr)
          else
            exchangeStage domain micropub tokenEp code clientId redirectUri verifier env tr

/-- The tail of `cmd_auth` after successful discovery (src/auth.rs:405-482):
PKCE material, scope validation, the authorization URL (challenge, never
verifier) handed to the browser, then the callback wait. -/
def authStage (domain : String) (scopeArg : Option String) (env : AuthEnv)
    (micropub authz tokenEp : String) (tr : List Effect) :
    Except String Unit × List Effect :=
  let verifier := env.verifier
  let challenge := generate_code_challenge verifier
  let state := env.state
  let redirectUri := "http://127.0.0.1:" ++ natStr env.port ++ "/callback"
  let clientId := env.clientId.getD "https://github.com/harperreed/micropub"
  let scope := scopeArg.getD "create update delete media"
  match validate_scope scope with
  | .error e => (.error e, tr)
  | .ok _ =>
    let tr := tr ++
      [.openBrowser authz (authUrlParams clientId redirectUri state challenge scope (meParam domain))]
    callbackStage domain micropub tokenEp clientId redirectUri verifier state env tr

/-- `cmd_auth` (src/auth.rs:393-655) as the composition of its stages. -/
def cmd_auth (domain : String) (scopeArg : Option String) (env : AuthEnv) :
    Except String Unit × List Effect :=
  match discover_endpoints env.resolve domain env.resp with
  | (.error e, tr) => (.error e, tr)
  | (.ok (micropub, authz, tokenEp), tr) =>
    authStage domain scopeArg env micropub authz tokenEp tr

/-! ## Trace observations and concrete fixtures -/

/-- The number of outbound HTTP requests in a trace. -/
def countHttp (tr : List Effect) : Nat := (tr.filter Effect.isHttpReq).length

/-- The number of token-exchange requests in a trace. -/
def countExchanges (tr : List Effect) : Nat := (tr.filter Effect.isExchange).length

/-- A resolver that accepts every URL unchanged, standing in for the `url`
crate's join on already-absolute URLs. -/
def idResolve : String → String → Except String String := fun _ h => .ok h

/-- A discovery response advertising all three endpoints in one `Link`
header. -/
def respBase : DiscResponse :=
  { finalUrl := "https://example.com/"
  , linkHeaders := ["<https://example.com/mp>; rel=\"micropub\", <https://example.com/auth>; rel=\"authorization_endpoint\", <https://example.com/tok>; rel=\"token_endpoint\""]
  , htmlLinks := [] }

/-- An environment for a fully successful run against `respBase`. -/
def envBase : AuthEnv :=
  { resolve := idResolve, resp := .ok respBase, port := 8089
  , verifier := "MYVERIFIER", state := "STATE1", clientId := none
  , serverRun := .ok (), cbCode := some "CODE9", cbState := some "STATE1"
  , cbError := none, exchangeOutcome := .ok "TOKEN7"
  , validationOutcome := .ok 200, validationBody := "" }

/-- `envBase` with a callback state that differs from the generated CSRF
state. -/
def envMismatch : AuthEnv := { envBase with cbState := some "EVILSTATE" }

/-- A discovery response whose final URL was redirected to plain HTTP on a
non-loopback host, while still advertising all three endpoints. -/
def respDowngraded : DiscResponse :=
  { respBase with finalUrl := "http://attacker.example/" }

/-- The character list after the first `://`, empty when there is none. -/
def afterSchemeChars : List Char → List Char
  | [] => []
  | c :: cs =>
    if leadsWith [':', '/', '/'] (c :: cs) then (c :: cs).drop 3
    else afterSchemeChars cs

/-- Spec-side reading (for comparison with the code): the host component of
an absolute URL — the text between `://` and the next `/`. -/
def specFinalHost (u : String) : String :=
  String.mk ((afterSchemeChars u.data).takeWhile (fun c => c ≠ '/'))

/-- Spec-side reading (for comparison with the code): the claim's "final
resolved host is loopback" — the host of the final URL is one of the
recognized loopback forms, with or without a port. -/
def specFinalHostIsLoopback (u : String) : Bool :=
  let host := specFinalHost u
  host = "localhost" || host = "127.0.0.1" || host = "::1" || host = "[::1]"
    || startsW host "localhost:" || startsW host "127.0.0.1:"
    || startsW host "[::1]:"

end Micropub

namespace Micropub

/-! # Theorems -/

/-- Exchange counts add across trace concatenation. -/
theorem countExchanges_append (a b : List Effect) :
    countExchanges (a ++ b) = countExchanges a + countExchanges b := by
  simp [countExchanges, List.filter_append]

/-- The discoverer's trace is empty or exactly its single GET. -/
theorem discover_trace_shape (resolve : String → String → Except String String)
    (domain : String) (resp : Except String DiscResponse) :
    (discover_endpoints resolve domain resp).2 = [] ∨
    ∃ u, (discover_endpoints resolve domain resp).2 = [Effect.httpGet u] := by
  unfold discover_endpoints
  cases hU : discoverUrl domain with
  | error m => left; rfl
  | ok url =>
    cases resp with
    | error m => right; exact ⟨url, rfl⟩
    | ok r =>
      right; refine ⟨url, ?_⟩
      by_cases hb : downgradeBlocked domain r.finalUrl
      · simp [hb]
      · simp only [Bool.not_eq_true] at hb
        simp only [hb, Bool.false_eq_true, if_false]
        cases discoverExtract resolve r.finalUrl r.linkHeaders r.htmlLinks <;> rfl

/-- A discovery trace contains no token-exchange request. -/
theorem countExchanges_discover (resolve : String → String → Except String String)
    (domain : String) (resp : Except String DiscResponse) :
    countExchanges (discover_endpoints resolve domain resp).2 = 0 := by
  rcases discover_trace_shape resolve domain resp with h | ⟨u, h⟩ <;>
    rw [h] <;> rfl

/-- When the validation status does not classify as `Rejected`, the
validation stage saves the token, queries the media endpoint, saves the
configuration, and succeeds. -/
theorem validationStage_accepts (domain micropub token : String) (env : AuthEnv)
    (tr : List Effect) (status : Nat)
    (hvo : env.validationOutcome = .ok status)
    (h : classifyStatus status ≠ .Rejected) :
    validationStage domain micropub token env tr =
      (.ok (), tr ++ [.httpValidate micropub token, .saveToken token,
        .httpMediaConfig micropub token, .saveConfig (profileName domain)]) := by
  unfold validationStage
  rw [hvo]
  simp only [classifyStatus] at h
  split_ifs at h ⊢ with h1 h2 h3 h4 <;> first | rfl | simp_all

/-- When the validation status classifies as `Rejected`, the validation
stage fails and the trace gains only the probe itself. -/
theorem validationStage_rejects (domain micropub token : String) (env : AuthEnv)
    (tr : List Effect) (status : Nat)
    (hvo : env.validationOutcome = .ok status)
    (h : classifyStatus status = .Rejected) :
    ∃ msg, validationStage domain micropub token env tr =
      (.error msg, tr ++ [.httpValidate micropub token]) := by
  unfold validationStage
  rw [hvo]
  by_cases h1 : 200 ≤ status ∧ status ≤ 299
  · exfalso; simp [classifyStatus, if_pos h1] at h
  · by_cases h2 : status = 401 ∨ status = 403
    · simp only [if_neg h1, if_pos h2]
      exact ⟨_, rfl⟩
    · by_cases h3 : status = 429
      · exfalso; simp [classifyStatus, if_neg h1, if_neg h2, if_pos h3] at h
      · by_cases h4 : 500 ≤ status ∧ status ≤ 599
        · exfalso; simp [classifyStatus, if_neg h1, if_neg h2, if_neg h3, if_pos h4] at h
        · simp only [if_neg h1, if_neg h2, if_neg h3, if_neg h4]
          exact ⟨_, rfl⟩


/-- C4: every 2xx validation status is classified `Accepted`; 401 and 403
`Rejected`; 429 `AcceptedWithWarning`; every 5xx `AcceptedWithWarning`;
every other 4xx `Rejected`; and at the validation stage of the flow a
`Rejected` classification fails the run without saving the token while any
other classification saves the token and succeeds. -/
theorem claim_C4 :
    (∀ s, 200 ≤ s → s ≤ 299 → classifyStatus s = .Accepted) ∧
    classifyStatus 401 = .Rejected ∧
    classifyStatus 403 = .Rejected ∧
    classifyStatus 429 = .AcceptedWithWarning ∧
    (∀ s, 500 ≤ s → s ≤ 599 → classifyStatus s = .AcceptedWithWarning) ∧
    (∀ s, 400 ≤ s → s ≤ 499 → s ≠ 401 → s ≠ 403 → s ≠ 429 →
      classifyStatus s = .Rejected) ∧
    (∀ domain micropub token env (tr : List Effect) status,
      env.validationOutcome = .ok status →
      Effect.saveToken token ∉ tr →
      (classifyStatus status = .Rejected →
        (∃ msg, (validationStage domain micropub token env tr).1 = .error msg) ∧
        Effect.saveToken token ∉ (validationStage domain micropub token env tr).2) ∧
      (classifyStatus status ≠ .Rejected →
        (validationStage domain micropub token env tr).1 = .ok () ∧
        Effect.saveToken token ∈ (validationStage domain micropub token env tr).2)) := by
  refine ⟨?_, by decide, by decide, by decide, ?_, ?_, ?_⟩
  · intro s hs1 hs2
    simp [classifyStatus, if_pos (And.intro hs1 hs2)]
  · intro s hs1 hs2
    have h1 : ¬(200 ≤ s ∧ s ≤ 299) := by omega
    have h2 : ¬(s = 401 ∨ s = 403) := by omega
    by_cases h3 : s = 429
    · simp [classifyStatus, if_neg h1, if_neg h2, if_pos h3]
    · simp [classifyStatus, if_neg h1, if_neg h2, if_neg h3, if_pos (And.intro hs1 hs2)]
  · intro s hs1 hs2 hs3 hs4 hs5
    have h1 : ¬(200 ≤ s ∧ s ≤ 299) := by omega
    have h2 : ¬(s = 401 ∨ s = 403) := by omega
    have h4 : ¬(500 ≤ s ∧ s ≤ 599) := by omega
    simp [classifyStatus, if_neg h1, if_neg h2, if_neg hs5, if_neg h4]
  · intro domain micropub token env tr status hvo hnotin
    constructor
    · intro hcl
      obtain ⟨msg, hmsg⟩ :=
        validationStage_rejects domain micropub token env tr status hvo hcl
      rw [hmsg]
      refine ⟨⟨msg, rfl⟩, ?_⟩
      simp [hnotin]
    · intro hcl
      rw [validationStage_accepts domain micropub token env tr status hvo hcl]
      simp

/-- C4 witness: a 200 validation response lets the concrete base run save
its token and succeed. -/
theorem claim_C4_witness :
    (validationStage "https://example.com" "https://example.com/mp" "TOKEN7"
      envBase []).1 = .ok () ∧
    Effect.saveToken "TOKEN7" ∈
      (validationStage "https://example.com" "https://example.com/mp" "TOKEN7"
        envBase []).2 :=
  (claim_C4.2.2.2.2.2.2 "https://example.com" "https://example.com/mp" "TOKEN7"
    envBase [] 200 rfl (by simp)).2 (by decide)

/-- C5 counterexample: the claim says a domain that already has an
`http://` scheme is used as-is, but the code rejects non-localhost
`http://` domains with an insecure-HTTP error. -/
theorem claim_C5_counterexample :
    discoverUrl "http://example.com" =
      .error "Insecure HTTP not allowed. Please use HTTPS: https://example.com" ∧
    discoverUrl "http://example.com" ≠ .ok "http://example.com" := by
  constructor <;> decide

/-- C5 (amended): `https://` domains are used as-is; `http://` domains are
used as-is only when the domain matches a localhost prefix and otherwise
fail with an insecure-HTTP error; schemeless domains are prefixed with
`http://` when they match a localhost prefix and with `https://`
otherwise. -/
theorem claim_C5 (domain : String) :
    (startsW domain "https://" = true → discoverUrl domain = .ok domain) ∧
    (startsW domain "https://" = false → startsW domain "http://" = true →
      is_localhost domain = true → discoverUrl domain = .ok domain) ∧
    (startsW domain "https://" = false → startsW domain "http://" = true →
      is_localhost domain = false → ∃ msg, discoverUrl domain = .error msg) ∧
    (startsW domain "https://" = false → startsW domain "http://" = false →
      is_localhost domain = true → discoverUrl domain = .ok ("http://" ++ domain)) ∧
    (startsW domain "https://" = false → startsW domain "http://" = false →
      is_localhost domain = false → discoverUrl domain = .ok ("https://" ++ domain)) := by
  refine ⟨?_, ?_, ?_, ?_, ?_⟩
  · intro h1; simp [discoverUrl, h1]
  · intro h1 h2 h3; simp [discoverUrl, h1, h2, h3]
  · intro h1 h2 h3; simp [discoverUrl, h1, h2, h3]
  · intro h1 h2 h3; simp [discoverUrl, h1, h2, h3]
  · intro h1 h2 h3; simp [discoverUrl, h1, h2, h3]

/-- C5 witness: one concrete domain through each normalization branch. -/
theorem claim_C5_witness :
    discoverUrl "https://site.example" = .ok "https://site.example" ∧
    discoverUrl "http://localhost:3000" = .ok "http://localhost:3000" ∧
    (∃ msg, discoverUrl "http://site.example" = .error msg) ∧
    discoverUrl "localhost:3000" = .ok ("http://" ++ "localhost:3000") ∧
    discoverUrl "site.example" = .ok ("https://" ++ "site.example") :=
  ⟨(claim_C5 "https://site.example").1 (by decide),
   (claim_C5 "http://localhost:3000").2.1 (by decide) (by decide) (by decide),
   (claim_C5 "http://site.example").2.2.1 (by decide) (by decide) (by decide),
   (claim_C5 "localhost:3000").2.2.2.1 (by decide) (by decide) (by decide),
   (claim_C5 "site.example").2.2.2.2 (by decide) (by decide) (by decide)⟩

/-- Every verifier-table index below 62 yields an ASCII alphanumeric. -/
theorem verifierChar_alnum : ∀ n, n < 62 → (verifierChar n).isAlphanum = true := by
  decide

/-- C9: under the `gen_range(0..62)` contract on the random draws, the
generated code verifier has exactly 128 characters, all from
`[A-Za-z0-9]`; and the code challenge is the pure function
base64url-no-pad of SHA-256 of the verifier bytes, so equal verifiers
always yield equal challenges. -/
theorem claim_C9 :
    (∀ draw : Nat → Nat, (∀ i, i < 128 → draw i < 62) →
      (generate_code_verifier draw).length = 128 ∧
      ∀ c ∈ (generate_code_verifier draw).data, c.isAlphanum = true) ∧
    (∀ v1 v2 : String, v1 = v2 →
      generate_code_challenge v1 = generate_code_challenge v2) ∧
    (∀ v : String, generate_code_challenge v = base64UrlNoPad (sha256 (strBytes v))) := by
  refine ⟨?_, fun v1 v2 h => by rw [h], fun v => rfl⟩
  intro draw hdraw
  constructor
  · show ((List.range 128).map (fun i => verifierChar (draw i))).length = 128
    simp
  · intro c hc
    have hc' : c ∈ (List.range 128).map (fun i => verifierChar (draw i)) := hc
    simp only [List.mem_map, List.mem_range] at hc'
    obtain ⟨i, hi, rfl⟩ := hc'
    exact verifierChar_alnum (draw i) (hdraw i hi)

/-- C9 witness: a concrete in-range draw function produces a 128-character
alphanumeric verifier. -/
theorem claim_C9_witness :
    (generate_code_verifier (fun j => j % 62)).length = 128 ∧
    ∀ c ∈ (generate_code_verifier (fun j => j % 62)).data, c.isAlphanum = true :=
  claim_C9.1 (fun j => j % 62) (by decide)

/-- C10: whenever the callback query carries an `error` parameter — even
alongside `code` and `state` — the handler stores only the error, leaves
the code and state slots untouched, and returns the failure page. -/
theorem claim_C10 (params : List (String × String)) (cb : OAuthCallback)
    (err : String) (h : lookupParam params "error" = some err) :
    handle_callback params cb =
      ({ cb with error := some err },
       { status := 200,
         body := failurePage err
           ((lookupParam params "error_description").getD "Unknown error") }) := by
  unfold handle_callback
  rw [h]

/-- C10 witness: a query with `error`, `code` and `state` stores only the
error. -/
theorem claim_C10_witness :
    handle_callback [("error", "denied"), ("code", "c1"), ("state", "s1")]
      ⟨none, none, none⟩ =
      (⟨none, none, some "denied"⟩,
       { status := 200, body := failurePage "denied" "Unknown error" }) :=
  claim_C10 [("error", "denied"), ("code", "c1"), ("state", "s1")]
    ⟨none, none, none⟩ "denied" (by decide)

/-- C8 counterexample: the callback slot already holds a terminal success
result, yet a second `/callback` request with a fresh code and state
overwrites it. -/
theorem claim_C8_counterexample :
    (handle_callback [("code", "b2"), ("state", "s2")]
        ⟨some "a1", some "s1", none⟩).1 = ⟨some "b2", some "s2", none⟩ ∧
    (⟨some "b2", some "s2", none⟩ : OAuthCallback) ≠ ⟨some "a1", some "s1", none⟩ := by
  constructor <;> decide

/-- C8 (amended): the stored result is not write-once — the handler
overwrites unconditionally: any request carrying `error` replaces the
stored error, any request carrying both `code` and `state` (and no
`error`) replaces the stored code and state, whatever the slot already
held; only a request with neither shape leaves the slot unchanged. The
listener's shutdown after the first terminal result bounds, but does not
prevent, such overwrites. -/
theorem claim_C8 (params : List (String × String)) (cb : OAuthCallback) :
    (∀ err, lookupParam params "error" = some err →
      (handle_callback params cb).1 = { cb with error := some err }) ∧
    (∀ c s, lookupParam params "error" = none →
      lookupParam params "code" = some c → lookupParam params "state" = some s →
      (handle_callback params cb).1 = { cb with code := some c, state := some s }) ∧
    (lookupParam params "error" = none →
      (lookupParam params "code" = none ∨ lookupParam params "state" = none) →
      (handle_callback params cb).1 = cb) := by
  refine ⟨?_, ?_, ?_⟩
  · intro err h
    unfold handle_callback
    rw [h]
  · intro c s he hc hs
    unfold handle_callback
    rw [he, hc, hs]
  · intro he hcs
    unfold handle_callback
    rw [he]
    rcases hcs with h | h
    · rw [h]
    · rw [h]
      rcases hC : lookupParam params "code" with _ | c <;> rfl

/-- C8 witness: the overwrite branch applied at the concrete second
request of the counterexample scenario. -/
theorem claim_C8_witness :
    (handle_callback [("code", "b2"), ("state", "s2")]
        ⟨some "a1", some "s1", none⟩).1 = ⟨some "b2", some "s2", none⟩ :=
  (claim_C8 [("code", "b2"), ("state", "s2")] ⟨some "a1", some "s1", none⟩).2.1
    "b2" "s2" (by decide) (by decide) (by decide)

/-- C1: in any run that reaches the CSRF comparison with a callback state
differing from the generated one, the flow fails with the state-mismatch
error and the trace contains no token-exchange request. -/
theorem claim_C1 (domain : String) (scopeArg : Option String) (env : AuthEnv)
    (mp az tk code received : String)
    (hd : (discover_endpoints env.resolve domain env.resp).1 = .ok (mp, az, tk))
    (hv : validate_scope (scopeArg.getD "create update delete media") = .ok ())
    (hs : env.serverRun = .ok ())
    (he : env.cbError = none)
    (hc : env.cbCode = some code)
    (hst : env.cbState = some received)
    (hne : received ≠ env.state) :
    (cmd_auth domain scopeArg env).1 = .error "State mismatch - possible CSRF attack" ∧
    countExchanges (cmd_auth domain scopeArg env).2 = 0 := by
  rcases hE : discover_endpoints env.resolve domain env.resp with ⟨res, tr⟩
  rw [hE] at hd
  replace hd : res = Except.ok (mp, az, tk) := hd
  subst hd
  have htr : countExchanges tr = 0 := by
    have h0 := countExchanges_discover env.resolve domain env.resp
    rw [hE] at h0
    exact h0
  simp only [cmd_auth, hE, authStage, hv, callbackStage, hs, he, hc, hst]
  rw [if_pos hne]
  refine ⟨rfl, ?_⟩
  rw [countExchanges_append, htr]
  rfl

/-- C1 witness: the concrete mismatching run fails with the CSRF error and
issues zero exchange requests. -/
theorem claim_C1_witness :
    (cmd_auth "https://example.com" (some "create update") envMismatch).1 =
      .error "State mismatch - possible CSRF attack" ∧
    countExchanges (cmd_auth "https://example.com" (some "create update") envMismatch).2 = 0 :=
  claim_C1 "https://example.com" (some "create update") envMismatch
    "https://example.com/mp" "https://example.com/auth" "https://example.com/tok"
    "CODE9" "EVILSTATE" (by decide) (by decide) rfl rfl rfl rfl (by decide)

/-- C2 counterexample: with the invalid scope `create;drop` the flow does
fail with the invalid-scope error, but only after the endpoint-discovery
GET — one HTTP request, not the zero the claim demands. -/
theorem claim_C2_counterexample :
    (cmd_auth "https://example.com" (some "create;drop") envBase).1 =
      .error "Invalid scope 'create;drop': only alphanumeric characters, spaces, hyphens, and underscores allowed" ∧
    countHttp (cmd_auth "https://example.com" (some "create;drop") envBase).2 = 1 := by
  constructor <;> decide

/-- C2 (amended): a scope with a character outside ASCII alphanumerics,
space, hyphen, underscore is rejected with the invalid-scope error —
`create;drop` rejected, `create update` accepted — and the flow then fails
before the authorization URL is built, so its trace holds no callback,
exchange, validation or persistence effect; but the rejection happens
after endpoint discovery, so the discovery GET has already been issued. -/
theorem claim_C2 :
    validate_scope "create update" = .ok () ∧
    (∃ msg, validate_scope "create;drop" = .error msg) ∧
    (∀ (scope : String) (c : Char), c ∈ scope.data → scopeCharOk c = false →
      ∃ msg, validate_scope scope = .error msg) ∧
    (∀ domain scopeArg env mp az tk msg,
      (discover_endpoints env.resolve domain env.resp).1 = .ok (mp, az, tk) →
      validate_scope (scopeArg.getD "create update delete media") = .error msg →
      (cmd_auth domain scopeArg env).1 = .error msg ∧
      ∀ eff ∈ (cmd_auth domain scopeArg env).2, ∃ u, eff = Effect.httpGet u) := by
  refine ⟨by decide,
    ⟨"Invalid scope 'create;drop': only alphanumeric characters, spaces, hyphens, and underscores allowed",
      by decide⟩, ?_, ?_⟩
  · intro scope c hmem hbad
    have hne : scope.data ≠ [] := by
      intro h0
      rw [h0] at hmem
      exact absurd hmem (List.not_mem_nil c)
    have hisEmpty : scope.data.isEmpty = false := by
      rcases hdata : scope.data with _ | ⟨x, xs⟩
      · exact absurd hdata hne
      · rfl
    have hall : scope.data.all scopeCharOk = false := by
      rcases hA : scope.data.all scopeCharOk with _ | _
      · rfl
      · exfalso
        have := (List.all_eq_true.mp hA) c hmem
        rw [hbad] at this
        exact Bool.false_ne_true this
    unfold validate_scope
    rw [hisEmpty, hall]
    exact ⟨_, rfl⟩
  · intro domain scopeArg env mp az tk msg hd hv
    rcases hE : discover_endpoints env.resolve domain env.resp with ⟨res, tr⟩
    rw [hE] at hd
    replace hd : res = Except.ok (mp, az, tk) := hd
    subst hd
    simp only [cmd_auth, hE, authStage, hv]
    refine ⟨trivial, ?_⟩
    intro eff heff
    have hshape := discover_trace_shape env.resolve domain env.resp
    rw [hE] at hshape
    rcases hshape with h0 | ⟨u, h0⟩
    · replace h0 : tr = [] := h0
      rw [h0] at heff
      exact absurd heff (List.not_mem_nil eff)
    · replace h0 : tr = [Effect.httpGet u] := h0
      rw [h0] at heff
      rcases List.mem_singleton.mp heff with rfl
      exact ⟨u, rfl⟩

/-- C2 witness: the invalid-scope branch of the amended claim at the
concrete run of the counterexample scenario. -/
theorem claim_C2_witness :
    (cmd_auth "https://example.com" (some "create;drop") envBase).1 =
      .error "Invalid scope 'create;drop': only alphanumeric characters, spaces, hyphens, and underscores allowed" :=
  (claim_C2.2.2.2 "https://example.com" (some "create;drop") envBase
    "https://example.com/mp" "https://example.com/auth" "https://example.com/tok"
    "Invalid scope 'create;drop': only alphanumeric characters, spaces, hyphens, and underscores allowed"
    (by decide) (by decide)).1

/-- One HTML pass step never changes an endpoint slot that is already
resolved. -/
theorem htmlLinkStep_preserves (resolve : String → String → Except String String)
    (finalUrl : String) (e : Endpoints) (link : String × Option String)
    (e' : Endpoints) (h : htmlLinkStep resolve finalUrl e link = .ok e') :
    (e.micropub.isSome = true → e'.micropub = e.micropub) ∧
    (e.authorization.isSome = true → e'.authorization = e.authorization) ∧
    (e.token.isSome = true → e'.token = e.token) := by
  rcases link with ⟨rel, href?⟩
  rcases href? with _ | href
  · simp only [htmlLinkStep] at h
    cases h
    exact ⟨fun _ => rfl, fun _ => rfl, fun _ => rfl⟩
  · simp only [htmlLinkStep] at h
    split_ifs at h with h1 h2 h3
    · rcases hr : resolve finalUrl href with m | r <;> rw [hr] at h
      · cases h
      · cases h
        refine ⟨fun hs => ?_, fun _ => rfl, fun _ => rfl⟩
        simp only [Bool.and_eq_true] at h1
        rw [Option.isNone_iff_eq_none.mp h1.2] at hs
        cases hs
    · rcases hr : resolve finalUrl href with m | r <;> rw [hr] at h
      · cases h
      · cases h
        refine ⟨fun _ => rfl, fun hs => ?_, fun _ => rfl⟩
        simp only [Bool.and_eq_true] at h2
        rw [Option.isNone_iff_eq_none.mp h2.2] at hs
        cases hs
    · rcases hr : resolve finalUrl href with m | r <;> rw [hr] at h
      · cases h
      · cases h
        refine ⟨fun _ => rfl, fun _ => rfl, fun hs => ?_⟩
        simp only [Bool.and_eq_true] at h3
        rw [Option.isNone_iff_eq_none.mp h3.2] at hs
        cases hs
    · cases h
      exact ⟨fun _ => rfl, fun _ => rfl, fun _ => rfl⟩

/-- The whole HTML pass never changes an endpoint slot that is already
resolved. -/
theorem htmlPass_preserves (resolve : String → String → Except String String)
    (finalUrl : String) :
    ∀ (links : List (String × Option String)) (e e' : Endpoints),
    htmlPass resolve finalUrl links e = .ok e' →
    (e.micropub.isSome = true → e'.micropub = e.micropub) ∧
    (e.authorization.isSome = true → e'.authorization = e.authorization) ∧
    (e.token.isSome = true → e'.token = e.token) := by
  intro links
  induction links with
  | nil =>
    intro e e' h
    simp only [htmlPass] at h
    cases h
    exact ⟨fun _ => rfl, fun _ => rfl, fun _ => rfl⟩
  | cons l ls ih =>
    intro e e' h
    simp only [htmlPass] at h
    rcases hstep : htmlLinkStep resolve finalUrl e l with m | e1 <;> rw [hstep] at h
    · cases h
    · have hp1 := htmlLinkStep_preserves resolve finalUrl e l e1 hstep
      have hp2 := ih e1 e' h
      refine ⟨fun hs => ?_, fun hs => ?_, fun hs => ?_⟩
      · have ha : e1.micropub = e.micropub := hp1.1 hs
        have hb : e'.micropub = e1.micropub := hp2.1 (by rw [ha]; exact hs)
        rw [hb, ha]
      · have ha : e1.authorization = e.authorization := hp1.2.1 hs
        have hb : e'.authorization = e1.authorization := hp2.2.1 (by rw [ha]; exact hs)
        rw [hb, ha]
      · have ha : e1.token = e.token := hp1.2.2 hs
        have hb : e'.token = e1.token := hp2.2.2 (by rw [ha]; exact hs)
        rw [hb, ha]

/-- C3 counterexample: two Link-header entries both declare `micropub`; the
claim says the first (`http://a/`) wins, but extraction returns the
second (`http://b/`). -/
theorem claim_C3_counterexample :
    discoverExtract idResolve "https://x/"
      ["<http://a/>; rel=\"micropub\", <http://b/>; rel=\"micropub\""] [] =
      .ok ⟨some "http://b/", none, none⟩ ∧
    (⟨some "http://b/", none, none⟩ : Endpoints) ≠ ⟨some "http://a/", none, none⟩ := by
  constructor <;> decide

/-- C3 (amended): each recognised `rel` match in the Link-header pass
assigns its slot unconditionally, so among several header matches for one
relation the *last* wins, not the first; HTML `<link>` tags are consulted
only for slots the headers left unresolved, so a Link-header value always
beats an HTML value for the same relation. -/
theorem claim_C3 :
    (∀ (resolved : String) (e : Endpoints),
      (relAssign "micropub" resolved e).micropub = some resolved) ∧
    (∀ (resolved : String) (e : Endpoints),
      (relAssign "authorization_endpoint" resolved e).authorization = some resolved) ∧
    (∀ (resolved : String) (e : Endpoints),
      (relAssign "token_endpoint" resolved e).token = some resolved) ∧
    (∀ resolve finalUrl headers links (e e' : Endpoints),
      headersPass resolve finalUrl headers emptyEndpoints = .ok e →
      htmlPass resolve finalUrl links e = .ok e' →
      discoverExtract resolve finalUrl headers links = .ok e' ∧
      (e.micropub.isSome = true → e'.micropub = e.micropub) ∧
      (e.authorization.isSome = true → e'.authorization = e.authorization) ∧
      (e.token.isSome = true → e'.token = e.token)) ∧
    discoverExtract idResolve "https://x/"
      ["<http://a/>; rel=\"micropub\", <http://b/>; rel=\"micropub\""] [] =
      .ok ⟨some "http://b/", none, none⟩ := by
  refine ⟨fun r e => rfl, fun r e => rfl, fun r e => rfl, ?_, by decide⟩
  intro resolve finalUrl headers links e e' h1 h2
  refine ⟨?_, htmlPass_preserves resolve finalUrl links e e' h2⟩
  unfold discoverExtract
  rw [h1]
  exact h2

/-- C3 witness: a header-resolved `micropub` survives an HTML tag for the
same relation. -/
theorem claim_C3_witness :
    discoverExtract idResolve "https://x/" ["<http://a/>; rel=\"micropub\""]
      [("micropub", some "http://h/")] = .ok ⟨some "http://a/", none, none⟩ :=
  (claim_C3.2.2.2.1 idResolve "https://x/" ["<http://a/>; rel=\"micropub\""]
    [("micropub", some "http://h/")] ⟨some "http://a/", none, none⟩
    ⟨some "http://a/", none, none⟩ (by decide) (by decide)).1

/-- C6 counterexample: a flow started over HTTPS whose final URL is plain
HTTP on a non-loopback host (`attacker.example`) is *not* rejected,
because the code keys the exemption on the input domain string
(`https://localhost.evil.com` matches the `https://localhost` prefix), not
on the final resolved host. -/
theorem claim_C6_counterexample :
    startsW "https://localhost.evil.com" "https://" = true ∧
    urlScheme "http://attacker.example/" ≠ "https" ∧
    specFinalHostIsLoopback "http://attacker.example/" = false ∧
    (discover_endpoints idResolve "https://localhost.evil.com"
      (.ok respDowngraded)).1 =
      .ok ("https://example.com/mp", "https://example.com/auth",
        "https://example.com/tok") := by
  refine ⟨by decide, by decide, by decide, by decide⟩

/-- C6 (amended): after a downgrade to a non-https final URL, discovery
fails with the security error if and only if the *input domain string*
does not match one of the `is_localhost` prefixes — the final resolved
host is never consulted. -/
theorem claim_C6 (resolve : String → String → Except String String)
    (domain : String) (r : DiscResponse) (url : String)
    (hurl : discoverUrl domain = .ok url) :
    (urlScheme r.finalUrl ≠ "https" → is_localhost domain = false →
      discover_endpoints resolve domain (.ok r) =
        (.error (downgradeMsg r.finalUrl), [.httpGet url])) ∧
    (is_localhost domain = true → downgradeBlocked domain r.finalUrl = false) ∧
    (urlScheme r.finalUrl = "https" → downgradeBlocked domain r.finalUrl = false) := by
  refine ⟨?_, ?_, ?_⟩
  · intro hsch hloc
    unfold discover_endpoints
    rw [hurl]
    have hb : downgradeBlocked domain r.finalUrl = true := by
      simp [downgradeBlocked, hsch, hloc]
    simp [hb]
  · intro hloc
    simp [downgradeBlocked, hloc]
  · intro hsch
    simp [downgradeBlocked, hsch]

/-- C6 witness: with a non-loopback input domain the same downgraded final
URL is rejected with the security error. -/
theorem claim_C6_witness :
    discover_endpoints idResolve "https://site.example" (.ok respDowngraded) =
      (.error (downgradeMsg "http://attacker.example/"),
       [.httpGet "https://site.example"]) :=
  (claim_C6 idResolve "https://site.example" respDowngraded "https://site.example"
    (by decide)).1 (by decide) (by decide)

/-- C7 counterexample: in a fully successful flow the raw verifier *is*
transmitted — it is the `code_verifier` field of the token-exchange POST
recorded in the trace. -/
theorem claim_C7_counterexample :
    (cmd_auth "https://example.com" (some "create update") envBase).1 = .ok () ∧
    Effect.httpExchange "https://example.com/tok"
      [("grant_type", "authorization_code"), ("code", "CODE9"),
       ("client_id", "https://github.com/harperreed/micropub"),
       ("redirect_uri", "http://127.0.0.1:8089/callback"),
       ("code_verifier", "MYVERIFIER")] ∈
      (cmd_auth "https://example.com" (some "create update") envBase).2 ∧
    ("code_verifier", "MYVERIFIER") ∈
      exchangeForm "CODE9" "https://github.com/harperreed/micropub"
        "http://127.0.0.1:8089/callback" "MYVERIFIER" := by
  refine ⟨by decide, by decide, by decide⟩

/-- C7 (amended): the authorization request carries the derived challenge
and never a `code_verifier` field — the verifier value itself appears in
the authorization query only if it collides with another parameter — while
the token-exchange POST form transmits the raw verifier exactly as its
`code_verifier` field. -/
theorem claim_C7 :
    (∀ clientId redirectUri state challenge scope me kv,
      kv ∈ authUrlParams clientId redirectUri state challenge scope me →
      kv.1 ≠ "code_verifier") ∧
    (∀ clientId redirectUri state challenge scope me,
      ("code_challenge", challenge) ∈
        authUrlParams clientId redirectUri state challenge scope me) ∧
    (∀ verifier clientId redirectUri state challenge scope me,
      verifier ≠ "code" → verifier ≠ clientId → verifier ≠ redirectUri →
      verifier ≠ state → verifier ≠ challenge → verifier ≠ "S256" →
      verifier ≠ scope → verifier ≠ me →
      verifier ∉
        (authUrlParams clientId redirectUri state challenge scope me).map Prod.snd) ∧
    (∀ code clientId redirectUri verifier,
      ("code_verifier", verifier) ∈ exchangeForm code clientId redirectUri verifier) := by
  refine ⟨?_, ?_, ?_, ?_⟩
  · intro clientId redirectUri state challenge scope me kv hkv
    simp only [authUrlParams, List.mem_cons, List.not_mem_nil, or_false] at hkv
    rcases hkv with rfl | rfl | rfl | rfl | rfl | rfl | rfl | rfl
    exacts [(by decide : ("response_type" : String) ≠ "code_verifier"),
      (by decide : ("client_id" : String) ≠ "code_verifier"),
      (by decide : ("redirect_uri" : String) ≠ "code_verifier"),
      (by decide : ("state" : String) ≠ "code_verifier"),
      (by decide : ("code_challenge" : String) ≠ "code_verifier"),
      (by decide : ("code_challenge_method" : String) ≠ "code_verifier"),
      (by decide : ("scope" : String) ≠ "code_verifier"),
      (by decide : ("me" : String) ≠ "code_verifier")]
  · intro clientId redirectUri state challenge scope me
    simp [authUrlParams]
  · intro verifier clientId redirectUri state challenge scope me h1 h2 h3 h4 h5 h6 h7 h8
    simp only [authUrlParams, List.map_cons, List.map_nil, List.mem_cons,
      List.not_mem_nil, or_false]
    intro hor
    rcases hor with h | h | h | h | h | h | h | h
    exacts [h1 h, h2 h, h3 h, h4 h, h5 h, h6 h, h7 h, h8 h]
  · intro code clientId redirectUri verifier
    simp [exchangeForm]

/-- C7 witness: a concrete verifier distinct from every other parameter is
absent from the authorization query values yet present in the exchange
form. -/
theorem claim_C7_witness :
    "SECRETV" ∉
      (authUrlParams "https://github.com/harperreed/micropub"
        "http://127.0.0.1:8089/callback" "STATE1" "CH" "create update"
        "https://example.com").map Prod.snd ∧
    ("code_verifier", "SECRETV") ∈
      exchangeForm "CODE9" "https://github.com/harperreed/micropub"
        "http://127.0.0.1:8089/callback" "SECRETV" :=
  ⟨claim_C7.2.2.1 "SECRETV" "https://github.com/harperreed/micropub"
      "http://127.0.0.1:8089/callback" "STATE1" "CH" "create update"
      "https://example.com" (by decide) (by decide) (by decide) (by decide)
      (by decide) (by decide) (by decide) (by decide),
   claim_C7.2.2.2 "CODE9" "https://github.com/harperreed/micropub"
      "http://127.0.0.1:8089/callback" "SECRETV"⟩

end Micropub
